import Mathlib

/-!
Verification of the pumpfun copy-trading bot core against its specification.

The Rust sources are embedded shallowly:
* `src/utils/swap_quote.rs` — the two quote functions use `f64` arithmetic, so an
  exact model of IEEE-754 binary64 (round-to-nearest, ties-to-even) is built first;
  every `f64` operation of the source is mirrored by the corresponding model
  operation, and the final `as u64` saturating cast by `F64.asU64`.
* `src/utils/utils.rs` — `ceil_div` over checked `u128` arithmetic.
* `src/instructions/buy_ix.rs` — `get_buy_ix` building the buy instruction.
* `src/main.rs` — the `process` control flow of `PumpfunInstructionProcessor`
  (buy branch, sell branch, relay dispatch), with the external collaborators
  (account arrangement, borsh decode, balance query, relay clients) supplied as
  parameters.
-/

namespace Pumpfun

/-- Number of binary digits of a natural number, with explicit fuel so that the
recursion is structural and kernel-reducible.  `bitlenAux fuel n` is the bit
length of `n` provided `fuel` is at least that length. -/
def bitlenAux : Nat → Nat → Nat
  | 0, _ => 0
  | fuel + 1, n => if n = 0 then 0 else bitlenAux fuel (n / 2) + 1

/-- Bit length of a natural number (`bitlen 0 = 0`, `bitlen n = ⌊log₂ n⌋ + 1` for `n > 0`). -/
def bitlen (n : Nat) : Nat := bitlenAux (n + 1) n

/-- Exact model of an IEEE-754 binary64 value.  A finite value `fin m e`
denotes `m · 2^e`; values produced by `roundQ` always have `|m| < 2^53`. -/
inductive F64 where
  | nan : F64
  | inf : F64
  | neginf : F64
  | fin (m : Int) (e : Int) : F64
deriving DecidableEq

/-- Round the real number `(n / d) · 2^e` (with `d ≠ 0`) to the nearest
binary64 value, ties to even, overflowing to an infinity — the IEEE-754 default
rounding used by every Rust `f64` operation. -/
def roundQ (n d e : Int) : F64 :=
  if n = 0 then .fin 0 0
  else
    let s : Bool := decide (0 < n) = decide (0 < d)
    let N : Nat := n.natAbs
    let D : Nat := d.natAbs
    let L : Int := (bitlen N : Int) - (bitlen D : Int) + e
    let geq : Bool :=
      if 0 ≤ e - L then decide (D ≤ N * 2 ^ (e - L).toNat)
      else decide (D * 2 ^ (L - e).toNat ≤ N)
    let E : Int := if geq then L else L - 1
    let ulp : Int := max (E - 52) (-1074)
    let k : Int := e - ulp
    let N2 : Nat := if 0 ≤ k then N * 2 ^ k.toNat else N
    let D2 : Nat := if 0 ≤ k then D else D * 2 ^ (-k).toNat
    let q : Nat := N2 / D2
    let r : Nat := N2 % D2
    let m : Nat :=
      if 2 * r < D2 then q
      else if D2 < 2 * r then q + 1
      else if q % 2 = 0 then q else q + 1
    let p : Nat × Int := if m = 2 ^ 53 then (2 ^ 52, ulp + 1) else (m, ulp)
    if 971 < p.2 then (if s then .inf else .neginf)
    else .fin (if s then (p.1 : Int) else -(p.1 : Int)) p.2

/-- Conversion `u64 as f64` (round to nearest). -/
def toF64 (x : Nat) : F64 := roundQ (x : Int) 1 0

/-- Sign of an `F64` read as "is non-negative"; used for the infinity cases. -/
def F64.signPos : F64 → Bool
  | .nan => true
  | .inf => true
  | .neginf => false
  | .fin m _ => decide (0 ≤ m)

/-- Is this float a (finite) zero? -/
def F64.isZero : F64 → Bool
  | .fin m _ => decide (m = 0)
  | _ => false

/-- IEEE-754 negation. -/
def fneg : F64 → F64
  | .nan => .nan
  | .inf => .neginf
  | .neginf => .inf
  | .fin m e => .fin (-m) e

/-- IEEE-754 addition with round to nearest, ties to even. -/
def fadd : F64 → F64 → F64
  | .nan, _ => .nan
  | _, .nan => .nan
  | .inf, .inf => .inf
  | .inf, .neginf => .nan
  | .neginf, .inf => .nan
  | .neginf, .neginf => .neginf
  | .inf, .fin _ _ => .inf
  | .neginf, .fin _ _ => .neginf
  | .fin _ _, .inf => .inf
  | .fin _ _, .neginf => .neginf
  | .fin m1 e1, .fin m2 e2 =>
    let e := min e1 e2
    roundQ (m1 * 2 ^ (e1 - e).toNat + m2 * 2 ^ (e2 - e).toNat) 1 e

/-- IEEE-754 subtraction. -/
def fsub (a b : F64) : F64 := fadd a (fneg b)

/-- IEEE-754 multiplication with round to nearest, ties to even. -/
def fmul : F64 → F64 → F64
  | .nan, _ => .nan
  | _, .nan => .nan
  | .fin m1 e1, .fin m2 e2 => roundQ (m1 * m2) 1 (e1 + e2)
  | a, b =>
    if a.isZero || b.isZero then .nan
    else if a.signPos = b.signPos then .inf else .neginf

/-- IEEE-754 division with round to nearest, ties to even. -/
def fdiv : F64 → F64 → F64
  | .nan, _ => .nan
  | _, .nan => .nan
  | .inf, .inf => .nan
  | .inf, .neginf => .nan
  | .neginf, .inf => .nan
  | .neginf, .neginf => .nan
  | .inf, .fin m _ => if 0 ≤ m then .inf else .neginf
  | .neginf, .fin m _ => if 0 ≤ m then .neginf else .inf
  | .fin _ _, .inf => .fin 0 0
  | .fin _ _, .neginf => .fin 0 0
  | .fin m1 e1, .fin m2 e2 =>
    if m2 = 0 then
      if m1 = 0 then .nan else if 0 < m1 then .inf else .neginf
    else roundQ m1 m2 (e1 - e2)

/-- Rust's saturating cast `f64 as u64`: NaN and negative values go to 0,
values at or above `2^64` (and `+∞`) to `u64::MAX`, otherwise truncation
toward zero. -/
def F64.asU64 : F64 → Nat
  | .nan => 0
  | .neginf => 0
  | .inf => 2 ^ 64 - 1
  | .fin m e =>
    if m ≤ 0 then 0
    else
      let v : Nat := if 0 ≤ e then m.toNat * 2 ^ e.toNat else m.toNat / 2 ^ (-e).toNat
      min v (2 ^ 64 - 1)

/-- The `f64` value of the Rust literal `1.011` (nearest binary64 to 1011/1000). -/
def f64_lit_1_011 : F64 := roundQ 1011 1000 0

/-- The `f64` value of the Rust literal `1.0`. -/
def f64_lit_1 : F64 := toF64 1

/-- `sol_token_quote` from `src/utils/swap_quote.rs`, with every `f64`
operation modelled exactly. -/
def sol_token_quote (amount virtual_sol_reserves virtual_token_reserves : Nat)
    (is_buy : Bool) : Nat :=
  let a := toF64 amount
  let s := toF64 virtual_sol_reserves
  let t := toF64 virtual_token_reserves
  let out_token_amount : F64 :=
    if is_buy then
      fmul (fdiv t (fadd a s)) a
    else
      fmul (fdiv t (fsub (fadd a s) f64_lit_1)) (fadd a f64_lit_1)
  out_token_amount.asU64

/-- `token_sol_quote` from `src/utils/swap_quote.rs`, with every `f64`
operation modelled exactly. -/
def token_sol_quote (amount virtual_sol_reserves virtual_token_reserves : Nat)
    (is_buy : Bool) : Nat :=
  let a := toF64 amount
  let s := toF64 virtual_sol_reserves
  let t := toF64 virtual_token_reserves
  let out_sol_amount : F64 :=
    if is_buy then
      fmul (fdiv a (fsub t a)) s
    else
      fmul (fdiv a (fadd t a)) s
  out_sol_amount.asU64

/-! ## `src/utils/utils.rs` -/

/-- Largest `u128` value. -/
def U128_MAX : Nat := 2 ^ 128 - 1

/-- `u128::checked_mul`. -/
def checked_mul (a b : Nat) : Option Nat :=
  if a * b ≤ U128_MAX then some (a * b) else none

/-- `u128::checked_add`. -/
def checked_add (a b : Nat) : Option Nat :=
  if a + b ≤ U128_MAX then some (a + b) else none

/-- `u128::checked_sub`. -/
def checked_sub (a b : Nat) : Option Nat :=
  if b ≤ a then some (a - b) else none

/-- `u128::checked_div`. -/
def checked_div (a b : Nat) : Option Nat :=
  if b = 0 then none else some (a / b)

/-- `ceil_div` from `src/utils/utils.rs`.  The source calls `.unwrap()` on the
`checked_mul`, which panics when the multiplication overflows; that (otherwise
unreachable) panic is modelled as `none`. -/
def ceil_div (token_amount fee_numerator fee_denominator : Nat) : Option Nat :=
  match checked_mul token_amount fee_numerator with
  | none => none
  | some p =>
    (checked_add p fee_denominator).bind fun x =>
      (checked_sub x 1).bind fun y =>
        checked_div y fee_denominator

/-- `FEE_RATE_DENOMINATOR_VALUE` from `src/utils/utils.rs`. -/
def FEE_RATE_DENOMINATOR_VALUE : Nat := 1000000

/-! ## `src/instructions/buy_ix.rs` -/

/-- Ledger account identities are opaque; only equality matters. -/
abbrev Pubkey := Nat

/-- `solana_sdk::instruction::AccountMeta`. -/
structure AccountMeta where
  pubkey : Pubkey
  is_signer : Bool
  is_writable : Bool
deriving DecidableEq

/-- `AccountMeta::new` — writable. -/
def AccountMeta.new (pubkey : Pubkey) (signer : Bool) : AccountMeta :=
  ⟨pubkey, signer, true⟩

/-- `AccountMeta::new_readonly` — not writable. -/
def AccountMeta.new_readonly (pubkey : Pubkey) (signer : Bool) : AccountMeta :=
  ⟨pubkey, signer, false⟩

/-- `solana_sdk::instruction::Instruction`: ordered account metadata plus an
opaque binary payload (bytes as naturals below 256). -/
structure Instruction where
  program_id : Pubkey
  accounts : List AccountMeta
  data : List Nat
deriving DecidableEq

/-- `u64::to_le_bytes`: the eight little-endian bytes of a 64-bit value. -/
def u64_le_bytes (n : Nat) : List Nat :=
  (List.range 8).map fun i => n / 256 ^ i % 256

/-- `BuyInstructionAccounts` (from the pumpfun decoder): the arranged account
bundle consumed by `get_buy_ix`. -/
structure BuyInstructionAccounts where
  global : Pubkey
  fee_recipient : Pubkey
  mint : Pubkey
  bonding_curve : Pubkey
  associated_bonding_curve : Pubkey
  associated_user : Pubkey
  user : Pubkey
  system_program : Pubkey
  token_program : Pubkey
  creator_vault : Pubkey
  event_authority : Pubkey
  program : Pubkey
deriving DecidableEq

/-- `EVENT_DISCRIMINATOR` from `src/instructions/buy_ix.rs`. -/
def EVENT_DISCRIMINATOR : List Nat := [228, 69, 165, 46, 81, 203, 154, 29]

/-- `get_buy_ix` from `src/instructions/buy_ix.rs`: the buy instruction's
8-byte discriminator followed by the little-endian `amount` and `max_sol_cost`
fields of the `Buy` parameter, and the fixed 12-entry account list. -/
def get_buy_ix (s : BuyInstructionAccounts) (amount max_sol_cost : Nat) : Instruction :=
  { program_id := s.program
    accounts :=
      [AccountMeta.new_readonly s.global false,
       AccountMeta.new s.fee_recipient false,
       AccountMeta.new s.mint false,
       AccountMeta.new s.bonding_curve false,
       AccountMeta.new s.associated_bonding_curve false,
       AccountMeta.new s.associated_user false,
       AccountMeta.new s.user true,
       AccountMeta.new_readonly s.system_program false,
       AccountMeta.new_readonly s.token_program false,
       AccountMeta.new s.creator_vault false,
       AccountMeta.new_readonly s.event_authority false,
       AccountMeta.new_readonly s.program false]
    data := [102, 6, 61, 18, 1, 218, 235, 234] ++ u64_le_bytes amount ++ u64_le_bytes max_sol_cost }

/-! ## `src/main.rs` — the `process` control flow

External collaborators (the carbon decoder's account arrangement, the borsh
`TradeEvent` decode, the associated-token-address derivation, the RPC balance
query, and the relay clients) are supplied as parameters of the model. -/

/-- `TradeEvent` (decoded by the external pumpfun decoder); field set as given
by the specification's data model. -/
structure TradeEvent where
  mint : Pubkey
  virtual_sol_reserves : Nat
  virtual_token_reserves : Nat
  is_buy : Bool
  timestamp : Int
  user : Pubkey
deriving DecidableEq

/-- `SellInstructionAccounts` (external decoder type); only the fields `main.rs`
reads or overwrites are modelled. -/
structure SellInstructionAccounts where
  mint : Pubkey
  user : Pubkey
  associated_user : Pubkey
  event_authority : Pubkey
deriving DecidableEq

/-- One inner (CPI) instruction of the transaction metadata:
`program_id_index` and account references are indices into the static
account-key table, `data` is the raw payload. -/
structure InnerIx where
  program_id_index : Nat
  accounts : List Nat
  data : List Nat
deriving DecidableEq

/-- One inner-instruction group (the instructions emitted under one top-level
instruction). -/
structure InnerGroup where
  instructions : List InnerIx
deriving DecidableEq

/-- The process-wide configuration and external collaborators of `process`. -/
structure Env where
  pubkey : Pubkey
  buy_sol_amount : Nat
  slippage : F64
  confirm_service : String
  pumpfun_program_id : Pubkey
  trade_event_disc : List Nat
  ata : Pubkey → Pubkey → Pubkey
  tryFromSlice : List Nat → Option TradeEvent

/-- The filter of the inner-instruction scan (`main.rs` lines 166–183): resolve
the program id and the first referenced account through the static account-key
table; any failed lookup drops the candidate. -/
def matchesEvent (keys : List Pubkey) (target ea : Pubkey) (ix : InnerIx) : Bool :=
  match keys.get? ix.program_id_index with
  | none => false
  | some program_id =>
    match ix.accounts.head? with
    | none => false
    | some first_account_index =>
      match keys.get? first_account_index with
      | none => false
      | some first_account => program_id = target && first_account = ea

/-- The `inner_ixs` list of `process`: take the first inner-instruction group
(if any) and keep the instructions passing `matchesEvent`; no group yields the
empty list (`unwrap_or_default`). -/
def innerIxs (keys : List Pubkey) (target ea : Pubkey)
    (groups : Option (List InnerGroup)) : List InnerIx :=
  match groups.bind List.head? with
  | some g => g.instructions.filter (matchesEvent keys target ea)
  | none => []

/-- An instruction built by a branch of `process`.  The create/close/sell
builders live outside `src`, so only the account bundle and the numeric
parameters the controller passes are recorded; `get_buy_ix` itself is embedded
above and `BuiltIx.buy` records exactly its arguments. -/
inductive BuiltIx where
  | createAtaIdempotent (accounts : BuyInstructionAccounts)
  | buy (accounts : BuyInstructionAccounts) (amount max_sol_cost : Nat)
  | sell (accounts : SellInstructionAccounts) (amount min_sol_output : Nat)
  | closeAta (accounts : SellInstructionAccounts)
deriving DecidableEq

/-- How a branch of `process` ends: fall through with the `raw_instructions`
vector, `return Ok(())` early, return a propagated error (the `CarbonResult`
error case — never produced by this code), or panic. -/
inductive Outcome where
  | completed (raws : List BuiltIx)
  | earlyReturn
  | errReturn (msg : String)
  | panicked (msg : String)
deriving DecidableEq

/-- A call of one of the quote functions, with its arguments and result. -/
structure QuoteCall where
  amount : Nat
  virtual_sol_reserves : Nat
  virtual_token_reserves : Nat
  is_buy : Bool
  result : Nat
deriving DecidableEq

/-- Result of one branch of `process`: its outcome together with the quote
calls it performed. -/
structure BranchResult where
  outcome : Outcome
  quoteCalls : List QuoteCall
deriving DecidableEq

/-- The account retargeting of the sell branch: `user` and `associated_user`
are overwritten with the controller's own wallet and its derived associated
account. -/
def retargetSell (env : Env) (a : SellInstructionAccounts) : SellInstructionAccounts :=
  { a with user := env.pubkey, associated_user := env.ata env.pubkey a.mint }

/-- The account retargeting of the buy branch. -/
def retargetBuy (env : Env) (a : BuyInstructionAccounts) : BuyInstructionAccounts :=
  { a with user := env.pubkey, associated_user := env.ata env.pubkey a.mint }

/-- `str::parse::<u64>`: optional leading `+`, then one or more ASCII digits,
value within `u64` range; anything else fails. -/
def parse_u64 (s : String) : Option Nat :=
  let cs : List Char :=
    match s.data with
    | '+' :: rest => rest
    | l => l
  match cs with
  | [] => none
  | _ =>
    (cs.foldl (fun acc c =>
        acc.bind fun v =>
          if '0' ≤ c ∧ c ≤ '9' then some (v * 10 + (c.toNat - '0'.toNat)) else none)
      (some 0)).bind
      fun v => if v ≤ 2 ^ 64 - 1 then some v else none

/-- Tail of the buy branch after a `TradeEvent` was decoded (`main.rs` lines
201–220): quote the token amount for the fixed collateral budget, compute the
slippage-padded maximum cost, and build the idempotent-create and buy
instructions. -/
def buyWithEvent (env : Env) (arranged : BuyInstructionAccounts)
    (trade_event : TradeEvent) : BranchResult :=
  let required_token_amount :=
    sol_token_quote env.buy_sol_amount trade_event.virtual_sol_reserves
      trade_event.virtual_token_reserves true
  let lamports_with_slippage :=
    (fmul (fmul (toF64 env.buy_sol_amount) f64_lit_1_011) (fadd f64_lit_1 env.slippage)).asU64
  ⟨.completed [.createAtaIdempotent arranged,
               .buy arranged required_token_amount lamports_with_slippage],
   [⟨env.buy_sol_amount, trade_event.virtual_sol_reserves,
     trade_event.virtual_token_reserves, true, required_token_amount⟩]⟩

/-- Tail of the sell branch after a `TradeEvent` was decoded (`main.rs` lines
285–325): query the balance, parse it, quote the minimum collateral output
(bound to `min_sol_amount_out`, recorded in the quote-call trace), compute
`lamports_with_slippage` from the buy budget, and build the sell and
close-account instructions. -/
def sellWithEvent (env : Env) (arranged : SellInstructionAccounts)
    (trade_event : TradeEvent) (balanceResult : Except String String) : BranchResult :=
  match balanceResult with
  | .error _ => ⟨.earlyReturn, []⟩
  | .ok token_balance =>
    match parse_u64 token_balance with
    | none => ⟨.earlyReturn, []⟩
    | some token_amount =>
      let min_sol_amount_out :=
        token_sol_quote token_amount trade_event.virtual_sol_reserves
          trade_event.virtual_token_reserves false
      let lamports_with_slippage :=
        (fmul (fmul (toF64 env.buy_sol_amount) f64_lit_1_011) (fsub f64_lit_1 env.slippage)).asU64
      ⟨.completed [.sell arranged token_amount lamports_with_slippage,
                   .closeAta arranged],
       [⟨token_amount, trade_event.virtual_sol_reserves,
         trade_event.virtual_token_reserves, false, min_sol_amount_out⟩]⟩

/-- The buy branch of `process` (`main.rs` lines 148–229). -/
def processBuy (env : Env) (arrangedIn : Option BuyInstructionAccounts)
    (keys : List Pubkey) (groups : Option (List InnerGroup)) : BranchResult :=
  match arrangedIn with
  | none => ⟨.completed [], []⟩
  | some arranged0 =>
    let arranged := retargetBuy env arranged0
    match (innerIxs keys env.pumpfun_program_id arranged.event_authority groups).head? with
    | none => ⟨.earlyReturn, []⟩
    | some swap_cpi_ix =>
      if env.trade_event_disc.isPrefixOf swap_cpi_ix.data then
        match env.tryFromSlice (swap_cpi_ix.data.drop 16) with
        | none => ⟨.panicked "Failed to parse TradeEvent", []⟩
        | some trade_event => buyWithEvent env arranged trade_event
      else ⟨.completed [], []⟩

/-- The sell branch of `process` (`main.rs` lines 230–334). -/
def processSell (env : Env) (arrangedIn : Option SellInstructionAccounts)
    (keys : List Pubkey) (groups : Option (List InnerGroup))
    (balanceResult : Except String String) : BranchResult :=
  match arrangedIn with
  | none => ⟨.completed [], []⟩
  | some arranged0 =>
    let arranged := retargetSell env arranged0
    match (innerIxs keys env.pumpfun_program_id arranged.event_authority groups).head? with
    | none => ⟨.earlyReturn, []⟩
    | some swap_cpi_ix =>
      if env.trade_event_disc.isPrefixOf swap_cpi_ix.data then
        match env.tryFromSlice (swap_cpi_ix.data.drop 16) with
        | none => ⟨.panicked "Failed to parse TradeEvent", []⟩
        | some trade_event => sellWithEvent env arranged trade_event balanceResult
      else ⟨.completed [], []⟩

/-! ### Relay dispatch (`main.rs` lines 340–419) -/

/-- Observable side effects of the dispatch block. -/
inductive DispatchEffect where
  | tipInject (relay : String)
  | signTx
  | submitTx (relay : String)
deriving DecidableEq

/-- The `results` JSON of the dispatch block: `result` field, and the
`message` field present only in the error shape. -/
structure DispatchResult where
  result : String
  message : Option String
deriving DecidableEq

/-- One relay arm: inject the tip, sign, submit, and normalize the submission
result into the JSON shape. -/
def relayArm (relay : String) (submitResult : Except String String) :
    DispatchResult × List DispatchEffect :=
  (match submitResult with
   | .ok data => ⟨data, none⟩
   | .error err => ⟨"error", some err⟩,
   [.tipInject relay, .signTx, .submitTx relay])

/-- The `CONFIRM_SERVICE` match of `process`: three known relays, anything
else is the structured `unknown confirmation service` failure with no effects. -/
def dispatch (service : String) (submitResult : Except String String) :
    DispatchResult × List DispatchEffect :=
  if service = "NOZOMI" then relayArm "NOZOMI" submitResult
  else if service = "ZERO_SLOT" then relayArm "ZERO_SLOT" submitResult
  else if service = "JITO" then relayArm "JITO" submitResult
  else (⟨"error", some "unknown confirmation service"⟩, [])

/-- The guard around the dispatch block: it runs only when the branch fell
through with a non-empty `raw_instructions` vector. -/
def dispatchGate (outcome : Outcome) (service : String)
    (submitResult : Except String String) :
    Option (DispatchResult × List DispatchEffect) :=
  match outcome with
  | .completed raws => if raws.isEmpty then none else some (dispatch service submitResult)
  | _ => none

/-- A full run of the sell path of `process`: the branch followed by the
gated dispatch. -/
structure ProcessRun where
  branch : BranchResult
  dispatched : Option (DispatchResult × List DispatchEffect)
deriving DecidableEq

/-- Run the sell branch and then the gated dispatch, as `process` does. -/
def runSell (env : Env) (arrangedIn : Option SellInstructionAccounts)
    (keys : List Pubkey) (groups : Option (List InnerGroup))
    (balanceResult : Except String String)
    (submitResult : Except String String) : ProcessRun :=
  let b := processSell env arrangedIn keys groups balanceResult
  ⟨b, dispatchGate b.outcome env.confirm_service submitResult⟩

/-- Run the buy branch and then the gated dispatch, as `process` does. -/
def runBuy (env : Env) (arrangedIn : Option BuyInstructionAccounts)
    (keys : List Pubkey) (groups : Option (List InnerGroup))
    (submitResult : Except String String) : ProcessRun :=
  let b := processBuy env arrangedIn keys groups
  ⟨b, dispatchGate b.outcome env.confirm_service submitResult⟩

/-! ## Specification-side comparator definitions

These definitions follow the specification's words (not the source) and are
used only to compare the embedded code against the spec's description. -/

/-- Follows the spec's words (§4.1): the offset formula variant — denominator
`(input + reserves − 1)`, numerator factor `(input + 1)` — evaluated in f64
exactly as the source evaluates its formulas. -/
def quote_formula_offset (amount vsol vtok : Nat) : Nat :=
  (fmul (fdiv (toF64 vtok) (fsub (fadd (toF64 amount) (toF64 vsol)) f64_lit_1))
    (fadd (toF64 amount) f64_lit_1)).asU64

/-- Follows the spec's words (§4.1): the unmodified constant-product formula
`vtok · input / (input + vsol)`, evaluated in f64. -/
def quote_formula_unmodified (amount vsol vtok : Nat) : Nat :=
  (fmul (fdiv (toF64 vtok) (fadd (toF64 amount) (toF64 vsol))) (toF64 amount)).asU64

/-- Follows the spec's words (C1): the minimum collateral output the sell path
is claimed to pass — the sell-direction quote with the slippage tolerance
applied to that quoted value (multiplier `1 − slippage`, in f64 as the code
applies slippage elsewhere). -/
def spec_min_sol_output (quoted : Nat) (slippage : F64) : Nat :=
  (fmul (toF64 quoted) (fsub f64_lit_1 slippage)).asU64

/-- Follows the spec's words (§4.2): take the first inner-instruction group and
find the first instruction whose resolved program id equals the target program
and whose resolved first account equals the event authority. -/
def find_trade_event_selection (keys : List Pubkey) (target ea : Pubkey)
    (groups : Option (List InnerGroup)) : Option InnerIx :=
  match groups.bind List.head? with
  | some g => g.instructions.find? (matchesEvent keys target ea)
  | none => none

/-- Follows the spec's words (§4.3 Buy): the documented payload and the
documented 12-entry account list with the documented writability and signer
flags. -/
def spec_buy_ix (s : BuyInstructionAccounts) (amount max_sol_cost : Nat) : Instruction :=
  { program_id := s.program
    accounts :=
      [⟨s.global, false, false⟩,
       ⟨s.fee_recipient, false, true⟩,
       ⟨s.mint, false, true⟩,
       ⟨s.bonding_curve, false, true⟩,
       ⟨s.associated_bonding_curve, false, true⟩,
       ⟨s.associated_user, false, true⟩,
       ⟨s.user, true, true⟩,
       ⟨s.system_program, false, false⟩,
       ⟨s.token_program, false, false⟩,
       ⟨s.creator_vault, false, true⟩,
       ⟨s.event_authority, false, false⟩,
       ⟨s.program, false, false⟩]
    data := [102, 6, 61, 18, 1, 218, 235, 234] ++ u64_le_bytes amount ++ u64_le_bytes max_sol_cost }

/-- The exact-integer constant-product quote, collateral→token direction:
`⌊vtok · amount / (amount + vsol)⌋` (the idealization the spec states in §4.1). -/
def sol_token_quote_exact (amount vsol vtok : Nat) : Nat :=
  vtok * amount / (amount + vsol)

/-- The exact-integer constant-product quote, token→collateral direction:
`⌊vsol · amount / (vtok + amount)⌋`. -/
def token_sol_quote_exact (amount vsol vtok : Nat) : Nat :=
  vsol * amount / (vtok + amount)

/-! ## Shared lemmas -/

/-- Retargeting does not change the event-authority account (sell bundle). -/
theorem retargetSell_event_authority (env : Env) (a : SellInstructionAccounts) :
    (retargetSell env a).event_authority = a.event_authority := rfl

/-- Retargeting does not change the event-authority account (buy bundle). -/
theorem retargetBuy_event_authority (env : Env) (a : BuyInstructionAccounts) :
    (retargetBuy env a).event_authority = a.event_authority := rfl

/-- The head of a filtered list is the first element satisfying the predicate. -/
theorem filter_head?_eq_find? {α : Type} (p : α → Bool) (l : List α) :
    (l.filter p).head? = l.find? p := by
  induction l with
  | nil => rfl
  | cons a t ih =>
    by_cases h : p a = true
    · simp [List.filter_cons, List.find?_cons, h]
    · simp only [Bool.not_eq_true] at h
      simp [List.filter_cons, List.find?_cons, h, ih]

/-- Division comparison by cross-multiplication: `x1/d1 ≤ x2/d2` whenever
`x1·d2 ≤ x2·d1` and both denominators are positive. -/
theorem div_le_div_cross {x1 x2 d1 d2 : Nat} (h : x1 * d2 ≤ x2 * d1)
    (hd1 : 0 < d1) (hd2 : 0 < d2) : x1 / d1 ≤ x2 / d2 := by
  rw [Nat.le_div_iff_mul_le hd2]
  have step1 : x1 / d1 * d2 * d1 ≤ x1 * d2 := by
    calc x1 / d1 * d2 * d1 = x1 / d1 * d1 * d2 := by ring
      _ ≤ x1 * d2 := Nat.mul_le_mul_right d2 (Nat.div_mul_le_self x1 d1)
  have step2 : x1 / d1 * d2 ≤ x1 * d2 / d1 := (Nat.le_div_iff_mul_le hd1).mpr step1
  calc x1 / d1 * d2 ≤ x1 * d2 / d1 := step2
    _ ≤ x2 * d1 / d1 := Nat.div_le_div_right h
    _ = x2 := Nat.mul_div_cancel x2 hd1

/-! ## Concrete inputs used by witnesses and counterexamples -/

/-- A concrete decoded trade event: reserves `(1_000_000, 1_000_000)`. -/
def cEvent : TradeEvent := ⟨3, 1000000, 1000000, true, 0, 7⟩

/-- A concrete borsh decoder: succeeds exactly on the empty remainder. -/
def cDecode : List Nat → Option TradeEvent :=
  fun l => if l = [] then some cEvent else none

/-- A concrete environment: wallet 100, zero buy budget, zero slippage,
relay `NOZOMI`, target program 9, event discriminator `[1..8]`. -/
def cEnv0 : Env :=
  ⟨100, 0, toF64 0, "NOZOMI", 9, [1, 2, 3, 4, 5, 6, 7, 8], fun _ _ => 77, cDecode⟩

/-- A concrete sell account bundle before retargeting. -/
def cSellAcc : SellInstructionAccounts := ⟨3, 50, 60, 4⟩

/-- `cSellAcc` after retargeting under `cEnv0`. -/
def cSellRet : SellInstructionAccounts := ⟨3, 100, 77, 4⟩

/-- A concrete buy account bundle before retargeting. -/
def cBuyAcc : BuyInstructionAccounts := ⟨10, 11, 3, 12, 13, 60, 50, 14, 15, 16, 4, 17⟩

/-- A qualifying inner instruction: program id resolves to 9, first account to
the event authority 4, payload = discriminator plus eight wrapper bytes. -/
def cInner : InnerIx := ⟨1, [0], [1, 2, 3, 4, 5, 6, 7, 8, 0, 0, 0, 0, 0, 0, 0, 0]⟩

/-- One inner-instruction group holding `cInner`. -/
def cGroups : Option (List InnerGroup) := some [⟨[cInner]⟩]

/-- A qualifying inner instruction whose payload remainder fails to decode. -/
def cInnerTrunc : InnerIx := ⟨1, [0], [1, 2, 3, 4, 5, 6, 7, 8, 0, 0, 0, 0, 0, 0, 0, 0, 9]⟩

/-- One inner-instruction group holding `cInnerTrunc`. -/
def cGroupsTrunc : Option (List InnerGroup) := some [⟨[cInnerTrunc]⟩]

/-- An inner instruction whose program id resolves to 4 — not the target. -/
def cInnerNoMatch : InnerIx := ⟨0, [0], [1, 2, 3, 4, 5, 6, 7, 8]⟩

/-- One inner-instruction group with no qualifying instruction. -/
def cGroupsNoMatch : Option (List InnerGroup) := some [⟨[cInnerNoMatch]⟩]

/-- A qualifying inner instruction whose first 8 bytes are not the event
discriminator. -/
def cInnerWrongDisc : InnerIx := ⟨1, [0], [9, 9, 9, 9, 9, 9, 9, 9, 0, 0, 0, 0, 0, 0, 0, 0]⟩

/-- One inner-instruction group holding `cInnerWrongDisc`. -/
def cGroupsWrongDisc : Option (List InnerGroup) := some [⟨[cInnerWrongDisc]⟩]

/-- A concrete static account-key table: index 0 is the event authority,
index 1 the target program. -/
def cKeys : List Pubkey := [4, 9]

end Pumpfun

open Pumpfun

/-! ## Claim theorems -/

/-- C3 counterexample: at `amount = 1`, reserves `(1, 10)`, the buy direction
of `sol_token_quote` returns 5 — the unmodified formula's value — and not 20,
the offset formula's value; the sell direction returns 20 and not 5.  The
claim has the two directions swapped. -/
theorem quote_direction_formulas_swapped_cex :
    sol_token_quote 1 1 10 true = 5 ∧ quote_formula_offset 1 1 10 = 20 ∧
    sol_token_quote 1 1 10 false = 20 ∧ quote_formula_unmodified 1 1 10 = 5 ∧
    (5 : Nat) ≠ 20 := by
  refine ⟨?_, ?_, ?_, ?_, by decide⟩ <;> · set_option maxRecDepth 40000 in decide

/-- C3 amended: for every input amount and reserve pair, the buy direction
(`is_buy = true`) uses the unmodified constant-product formula
`vtok · input / (input + vsol)`, while the sell direction uses denominator
`(input + vsol − 1)` and numerator factor `(input + 1)` — both evaluated in
f64 as the source does. -/
theorem quote_direction_formulas :
    ∀ amount vsol vtok : Nat,
      sol_token_quote amount vsol vtok true = quote_formula_unmodified amount vsol vtok ∧
      sol_token_quote amount vsol vtok false = quote_formula_offset amount vsol vtok :=
  fun _ _ _ => ⟨rfl, rfl⟩

/-- C6: for every account bundle and parameters, the built buy instruction's
data is exactly the 8-byte discriminator `[102,6,61,18,1,218,235,234]`
followed by the little-endian `amount` and little-endian `max_sol_cost`
(24 bytes in total), and its account list is exactly the documented 12-entry
list, in order, with the documented writability flags and the user as the
only signer. -/
theorem buy_ix_layout :
    ∀ (s : BuyInstructionAccounts) (amount max_sol_cost : Nat),
      get_buy_ix s amount max_sol_cost = spec_buy_ix s amount max_sol_cost ∧
      (get_buy_ix s amount max_sol_cost).data =
        [102, 6, 61, 18, 1, 218, 235, 234] ++ u64_le_bytes amount ++ u64_le_bytes max_sol_cost ∧
      (get_buy_ix s amount max_sol_cost).data.length = 24 ∧
      (get_buy_ix s amount max_sol_cost).accounts.length = 12 ∧
      (get_buy_ix s amount max_sol_cost).accounts.map AccountMeta.is_signer =
        [false, false, false, false, false, false, true, false, false, false, false, false] := by
  intro s amount max_sol_cost
  refine ⟨rfl, rfl, ?_, rfl, rfl⟩
  simp [get_buy_ix, u64_le_bytes]

/-- C9: for reserves `(30_000_000_000, 1_073_000_000_000_000)` and buy input
`10_000_000`, the buy-direction quote — computed through f64 intermediates —
equals the exact integer `⌊1_073_000_000_000_000 · 10_000_000 / (10_000_000 +
30_000_000_000)⌋`. -/
theorem buy_quote_scenario_exact_floor :
    sol_token_quote 10000000 30000000000 1073000000000000 true =
      1073000000000000 * 10000000 / (10000000 + 30000000000) := by
  set_option maxRecDepth 100000 in decide

/-- C10: whenever the denominator is positive and `t·n + d` does not exceed
`u128::MAX`, `ceil_div` returns `some ((t·n + d − 1) / d)`, and that value `q`
is the ceiling of `t·n / d`: `t·n ≤ q·d < t·n + d`. -/
theorem ceil_div_correct :
    ∀ t n d : Nat, 0 < d → t * n + d ≤ U128_MAX →
      ceil_div t n d = some ((t * n + d - 1) / d) ∧
      t * n ≤ ((t * n + d - 1) / d) * d ∧
      ((t * n + d - 1) / d) * d < t * n + d := by
  intro t n d hd hb
  have hx : t * n ≤ U128_MAX := by omega
  have hd0 : d ≠ 0 := Nat.pos_iff_ne_zero.mp hd
  have h1 : 1 ≤ t * n + d := by omega
  refine ⟨?_, ?_, ?_⟩
  · simp [ceil_div, checked_mul, checked_add, checked_sub, checked_div, hx, hb, h1, hd0]
  · have hmod := Nat.div_add_mod (t * n + d - 1) d
    have hlt : (t * n + d - 1) % d < d := Nat.mod_lt _ hd
    have hcomm : (t * n + d - 1) / d * d = d * ((t * n + d - 1) / d) := Nat.mul_comm _ _
    rw [hcomm]
    generalize d * ((t * n + d - 1) / d) = P at hmod ⊢
    omega
  · have hself : ((t * n + d - 1) / d) * d ≤ t * n + d - 1 := Nat.div_mul_le_self _ d
    omega

/-- C8 counterexample: monotonicity in the input amount fails for the
floating-point quote functions.  At reserves `(1, 10)` the sell direction of
`sol_token_quote` decreases from 20 (amount 1) to 15 (amount 2); at reserves
`(10, 10)` the buy direction of `token_sol_quote` decreases from 90 (amount 9)
to 0 (amount 11). -/
theorem quote_monotonicity_cex :
    ¬ (∀ vsol vtok : Nat, 0 < vsol → 0 < vtok → ∀ (is_buy : Bool) (a1 a2 : Nat), a1 ≤ a2 →
        sol_token_quote a1 vsol vtok is_buy ≤ sol_token_quote a2 vsol vtok is_buy ∧
        token_sol_quote a1 vsol vtok is_buy ≤ token_sol_quote a2 vsol vtok is_buy) := by
  intro h
  have h1 := (h 1 10 (by decide) (by decide) false 1 2 (by decide)).1
  have h2 := (h 10 10 (by decide) (by decide) true 9 11 (by decide)).2
  revert h1 h2
  set_option maxRecDepth 40000 in decide

/-- C8 amended: the floating-point quote functions are not monotone, but the
exact-integer constant-product quotes they approximate are: for all positive
reserve pairs, both `⌊vtok·a/(a+vsol)⌋` and `⌊vsol·a/(vtok+a)⌋` are
monotonically non-decreasing in the input amount. -/
theorem quote_exact_monotone :
    ∀ vsol vtok : Nat, 0 < vsol → 0 < vtok → ∀ a1 a2 : Nat, a1 ≤ a2 →
      sol_token_quote_exact a1 vsol vtok ≤ sol_token_quote_exact a2 vsol vtok ∧
      token_sol_quote_exact a1 vsol vtok ≤ token_sol_quote_exact a2 vsol vtok := by
  intro vsol vtok hs ht a1 a2 h12
  constructor
  · have cross : vtok * a1 * (a2 + vsol) ≤ vtok * a2 * (a1 + vsol) := by
      have key : vtok * a1 * vsol ≤ vtok * a2 * vsol :=
        Nat.mul_le_mul_right vsol (Nat.mul_le_mul_left vtok h12)
      calc vtok * a1 * (a2 + vsol) = vtok * a2 * a1 + vtok * a1 * vsol := by ring
        _ ≤ vtok * a2 * a1 + vtok * a2 * vsol := Nat.add_le_add_left key _
        _ = vtok * a2 * (a1 + vsol) := by ring
    exact div_le_div_cross cross (by omega) (by omega)
  · have cross : vsol * a1 * (vtok + a2) ≤ vsol * a2 * (vtok + a1) := by
      have key : vsol * a1 * vtok ≤ vsol * a2 * vtok :=
        Nat.mul_le_mul_right vtok (Nat.mul_le_mul_left vsol h12)
      calc vsol * a1 * (vtok + a2) = vsol * a1 * vtok + vsol * a2 * a1 := by ring
        _ ≤ vsol * a2 * vtok + vsol * a2 * a1 := Nat.add_le_add_right key _
        _ = vsol * a2 * (vtok + a1) := by ring
    exact div_le_div_cross cross (by omega) (by omega)

/-- C8 witness: the exact quotes are monotone from amount 0 to amount 5 at
reserves `(1, 1)`. -/
theorem quote_exact_monotone_witness :
    sol_token_quote_exact 0 1 1 ≤ sol_token_quote_exact 5 1 1 ∧
    token_sol_quote_exact 0 1 1 ≤ token_sol_quote_exact 5 1 1 :=
  quote_exact_monotone 1 1 (by decide) (by decide) 0 5 (by decide)

/-- C7: for every configured relay name other than `NOZOMI`, `ZERO_SLOT` and
`JITO`, dispatching a non-empty instruction list yields the structured failure
`result = "error"` with message `"unknown confirmation service"`, and the
effect list is empty — no tip injection, no signing, no submission, no
fallback to another relay. -/
theorem unknown_relay_failure :
    ∀ service : String, service ≠ "NOZOMI" → service ≠ "ZERO_SLOT" → service ≠ "JITO" →
      ∀ raws : List BuiltIx, raws ≠ [] → ∀ submitResult : Except String String,
        dispatchGate (.completed raws) service submitResult =
          some (⟨"error", some "unknown confirmation service"⟩, []) := by
  intro service h1 h2 h3 raws hr submitResult
  cases raws with
  | nil => exact absurd rfl hr
  | cons a t => simp [dispatchGate, dispatch, h1, h2, h3]

/-- C7 witness: relay name `"FOO"` with a one-element instruction list. -/
theorem unknown_relay_failure_witness :
    dispatchGate (.completed [.closeAta cSellAcc]) "FOO" (.ok "sig") =
      some (⟨"error", some "unknown confirmation service"⟩, []) :=
  unknown_relay_failure "FOO" (by decide) (by decide) (by decide)
    [.closeAta cSellAcc] (by decide) (.ok "sig")

/-- C1: in the sell path (buy budget 0, slippage 0, balance `"1000"`, reserves
`(1_000_000, 1_000_000)`), the built sell instruction's `min_sol_output` is 0 —
the slippage-padded *buy budget* — while the QuoteEngine sell-direction quote
of the token balance is 999 and the slippage-adjusted quote is 999.  The code
computes the quote into the unused `min_sol_amount_out` and assigns
`min_sol_output` from `BUY_SOL_AMOUNT` instead. -/
theorem sell_min_sol_output_ignores_quote :
    processSell cEnv0 (some cSellAcc) cKeys cGroups (.ok "1000") =
      ⟨.completed [.sell cSellRet 1000 0, .closeAta cSellRet],
       [⟨1000, 1000000, 1000000, false, 999⟩]⟩ ∧
    token_sol_quote 1000 1000000 1000000 false = 999 ∧
    spec_min_sol_output 999 (toF64 0) = 999 ∧
    (0 : Nat) ≠ 999 := by
  refine ⟨?_, ?_, ?_, by decide⟩ <;> · set_option maxRecDepth 40000 in decide

/-- C2 counterexample: with balance string `"0"` the sell path does *not*
terminate silently — it parses the balance to 0, invokes the sell-direction
quote with amount 0, builds the sell (amount 0) and close-account
instructions, and dispatches them. -/
theorem sell_zero_balance_proceeds :
    runSell cEnv0 (some cSellAcc) cKeys cGroups (.ok "0") (.ok "sig") =
      ⟨⟨.completed [.sell cSellRet 0 0, .closeAta cSellRet],
        [⟨0, 1000000, 1000000, false, 0⟩]⟩,
       some (⟨"sig", none⟩, [.tipInject "NOZOMI", .signTx, .submitTx "NOZOMI"])⟩ := by
  set_option maxRecDepth 40000 in decide

/-- C2 amended: a balance string that fails to parse as `u64` makes the sell
path terminate silently — no quote call, no instruction built, no dispatch —
while the parsable string `"0"` makes it proceed: the quote is invoked with
amount 0 and sell/close instructions are built and dispatched. -/
theorem sell_balance_parse_failure_terminates :
    (∀ (env : Env) (arr : SellInstructionAccounts) (keys : List Pubkey)
        (groups : Option (List InnerGroup)) (cpi : InnerIx) (ev : TradeEvent)
        (s : String) (submitResult : Except String String),
      (innerIxs keys env.pumpfun_program_id arr.event_authority groups).head? = some cpi →
      env.trade_event_disc.isPrefixOf cpi.data = true →
      env.tryFromSlice (cpi.data.drop 16) = some ev →
      parse_u64 s = none →
      runSell env (some arr) keys groups (.ok s) submitResult = ⟨⟨.earlyReturn, []⟩, none⟩) ∧
    (runSell cEnv0 (some cSellAcc) cKeys cGroups (.ok "0") (.ok "sig")).branch.quoteCalls =
      [⟨0, 1000000, 1000000, false, 0⟩] ∧
    (runSell cEnv0 (some cSellAcc) cKeys cGroups (.ok "0") (.ok "sig")).dispatched.isSome = true := by
  refine ⟨?_, ?_, ?_⟩
  · intro env arr keys groups cpi ev s submitResult h1 h2 h3 h4
    simp only [runSell, processSell, retargetSell_event_authority, h1, h2, h3,
      sellWithEvent, h4, if_true, dispatchGate]
  · set_option maxRecDepth 40000 in decide
  · set_option maxRecDepth 40000 in decide

/-- C2 witness: the unparsable balance string `"x"` terminates the sell path
silently at the concrete qualifying input. -/
theorem sell_balance_parse_failure_terminates_witness :
    runSell cEnv0 (some cSellAcc) cKeys cGroups (.ok "x") (.ok "sig") =
      ⟨⟨.earlyReturn, []⟩, none⟩ :=
  sell_balance_parse_failure_terminates.1 cEnv0 cSellAcc cKeys cGroups cInner cEvent
    "x" (.ok "sig") (by decide) (by decide) (by decide) (by decide)

/-- C4 counterexample: a matched inner instruction whose payload begins with
the event discriminator but whose remainder fails to decode makes the buy
branch *panic* (`expect("Failed to parse TradeEvent")`) — it does not return
a propagated error. -/
theorem decode_failure_panics_cex :
    (processBuy cEnv0 (some cBuyAcc) cKeys cGroupsTrunc).outcome =
      .panicked "Failed to parse TradeEvent" ∧
    ∀ msg : String,
      (processBuy cEnv0 (some cBuyAcc) cKeys cGroupsTrunc).outcome ≠ .errReturn msg := by
  have he : (processBuy cEnv0 (some cBuyAcc) cKeys cGroupsTrunc).outcome =
      .panicked "Failed to parse TradeEvent" := by decide
  refine ⟨he, fun msg h => ?_⟩
  rw [he] at h
  exact Outcome.noConfusion h

/-- C4 amended: when a matched inner instruction's payload begins with the
event discriminator but the remainder fails to decode as a `TradeEvent`, the
buy branch panics with message `"Failed to parse TradeEvent"` (aborting the
processing task) and nothing is dispatched. -/
theorem decode_failure_panics :
    ∀ (env : Env) (arr : BuyInstructionAccounts) (keys : List Pubkey)
      (groups : Option (List InnerGroup)) (cpi : InnerIx)
      (submitResult : Except String String),
      (innerIxs keys env.pumpfun_program_id arr.event_authority groups).head? = some cpi →
      env.trade_event_disc.isPrefixOf cpi.data = true →
      env.tryFromSlice (cpi.data.drop 16) = none →
      runBuy env (some arr) keys groups submitResult =
        ⟨⟨.panicked "Failed to parse TradeEvent", []⟩, none⟩ := by
  intro env arr keys groups cpi submitResult h1 h2 h3
  simp only [runBuy, processBuy, retargetBuy_event_authority, h1, h2, h3,
    if_true, dispatchGate]

/-- C4 witness: the concrete qualifying-but-truncated payload panics the buy
branch. -/
theorem decode_failure_panics_witness :
    runBuy cEnv0 (some cBuyAcc) cKeys cGroupsTrunc (.ok "sig") =
      ⟨⟨.panicked "Failed to parse TradeEvent", []⟩, none⟩ :=
  decode_failure_panics cEnv0 cBuyAcc cKeys cGroupsTrunc cInnerTrunc (.ok "sig")
    (by decide) (by decide) (by decide)

/-- C5: (1) the inner-instruction selection of the buy branch is exactly "first
inner group, filter by resolved program id = target and resolved first account
= event authority, take the first match"; (2) when nothing matches, the branch
returns early with no instructions and no dispatch; (3) when the first match's
leading bytes differ from the event discriminator, the branch completes with an
empty instruction list and nothing is dispatched. -/
theorem event_extraction_first_match_and_none_cases :
    (∀ (keys : List Pubkey) (target ea : Pubkey) (groups : Option (List InnerGroup)),
      (innerIxs keys target ea groups).head? = find_trade_event_selection keys target ea groups) ∧
    (∀ (env : Env) (arr : BuyInstructionAccounts) (keys : List Pubkey)
        (groups : Option (List InnerGroup)) (submitResult : Except String String),
      (innerIxs keys env.pumpfun_program_id arr.event_authority groups).head? = none →
      runBuy env (some arr) keys groups submitResult = ⟨⟨.earlyReturn, []⟩, none⟩) ∧
    (∀ (env : Env) (arr : BuyInstructionAccounts) (keys : List Pubkey)
        (groups : Option (List InnerGroup)) (cpi : InnerIx)
        (submitResult : Except String String),
      (innerIxs keys env.pumpfun_program_id arr.event_authority groups).head? = some cpi →
      env.trade_event_disc.isPrefixOf cpi.data = false →
      runBuy env (some arr) keys groups submitResult = ⟨⟨.completed [], []⟩, none⟩) := by
  refine ⟨?_, ?_, ?_⟩
  · intro keys target ea groups
    unfold innerIxs find_trade_event_selection
    cases groups.bind List.head? with
    | none => rfl
    | some g => exact filter_head?_eq_find? _ g.instructions
  · intro env arr keys groups submitResult h1
    simp only [runBuy, processBuy, retargetBuy_event_authority, h1, dispatchGate]
  · intro env arr keys groups cpi submitResult h1 h2
    simp only [runBuy, processBuy, retargetBuy_event_authority, h1, h2,
      Bool.false_eq_true, if_false, dispatchGate, List.isEmpty_nil, if_true]

/-- C5 witness: at concrete inputs — a qualifying single-match group, a group
with no match, and a qualifying group with a wrong discriminator — the three
parts of the extraction contract hold. -/
theorem event_extraction_first_match_and_none_cases_witness :
    (innerIxs cKeys 9 4 cGroups).head? = find_trade_event_selection cKeys 9 4 cGroups ∧
    runBuy cEnv0 (some cBuyAcc) cKeys cGroupsNoMatch (.ok "sig") =
      ⟨⟨.earlyReturn, []⟩, none⟩ ∧
    runBuy cEnv0 (some cBuyAcc) cKeys cGroupsWrongDisc (.ok "sig") =
      ⟨⟨.completed [], []⟩, none⟩ :=
  ⟨event_extraction_first_match_and_none_cases.1 cKeys 9 4 cGroups,
   event_extraction_first_match_and_none_cases.2.1 cEnv0 cBuyAcc cKeys cGroupsNoMatch
     (.ok "sig") (by decide),
   event_extraction_first_match_and_none_cases.2.2 cEnv0 cBuyAcc cKeys cGroupsWrongDisc
     cInnerWrongDisc (.ok "sig") (by decide) (by decide)⟩

/-- C10 witness: `ceil_div 5 3 2 = some 8`, and 8 is the ceiling of `15 / 2`. -/
theorem ceil_div_correct_witness :
    ceil_div 5 3 2 = some ((5 * 3 + 2 - 1) / 2) ∧
    5 * 3 ≤ ((5 * 3 + 2 - 1) / 2) * 2 ∧ ((5 * 3 + 2 - 1) / 2) * 2 < 5 * 3 + 2 :=
  ceil_div_correct 5 3 2 (by decide) (by decide)
